import Mathlib

/-
Verification development for quizgen.py, a single-file script that asks an
external text-generation API for multiple-choice quiz questions, parses the
response as JSON, and either prints the question list as JSON (batch mode)
or runs a terminal quiz loop (interactive mode).  The script also keeps a
usage counter persisted in a plain-text file.

The embedding below is a shallow translation of quizgen.py:
  * JSON values are modelled by the inductive type `Json` (JSON numbers are
    modelled as integers; the script's own data never uses fractional
    numbers and no claim depends on them).
  * The external collaborators (the cohere client `co.chat` and the standard
    library functions `json.loads` / `json.dumps`) are treated as follows:
    `co.chat` and `json.loads` are abstract parameters of the run (they are
    not code of this repository), while `json.dumps` output formatting is
    modelled concretely so that batch-mode output can be computed.
  * Python exceptions are modelled with `Except` / explicit error results
    (`PyErr`); an uncaught exception terminates the process with exit
    status 1, as CPython does for an unhandled exception.
  * stdout / stderr are modelled as lists of strings, one entry per
    `print` (or `input` prompt) call.
  * The interactive loop state carries a ghost counter `dup` that counts
    how many times control enters the duplicated block at lines 101-114 of
    quizgen.py; it instruments reachability and has no other effect.
-/

namespace Quizgen

/-- Python exception kinds that quizgen.py can raise or catch. -/
inductive PyErr where
  | keyError (k : String)
  | typeError
  | indexError
  | valueError
  | nameError (n : String)
  | eofError
  | keyboardInterrupt
deriving DecidableEq, Repr

/-- JSON values (numbers modelled as integers). -/
inductive Json where
  | null
  | bool (b : Bool)
  | num (n : Int)
  | str (s : String)
  | arr (elems : List Json)
  | obj (fields : List (String × Json))

/-- Lowercase hex digit, as used by json.dumps \uXXXX escapes. -/
def hexDigit (n : Nat) : Char :=
  if n < 10 then Char.ofNat (48 + n) else Char.ofNat (87 + n)

/-- \uXXXX escape for a (BMP) code point, as produced by json.dumps. -/
def uEscape (n : Nat) : String :=
  "\\u" ++ String.mk [hexDigit (n / 4096 % 16), hexDigit (n / 256 % 16),
                      hexDigit (n / 16 % 16), hexDigit (n % 16)]

/-- How json.dumps (default ensure_ascii=True) renders one character inside a
string literal.  Code points above 0xFFFF would use surrogate pairs in
CPython; they are rendered here as a single \uXXXX escape (no claim touches
them). -/
def jsonEscapeChar (c : Char) : String :=
  if c = Char.ofNat 34 then "\\\""
  else if c = '\\' then "\\\\"
  else if c = '\n' then "\\n"
  else if c = '\t' then "\\t"
  else if c = '\r' then "\\r"
  else if c = Char.ofNat 8 then "\\b"
  else if c = Char.ofNat 12 then "\\f"
  else if c.toNat < 32 then uEscape c.toNat
  else if c.toNat ≥ 128 then uEscape c.toNat
  else String.singleton c

/-- A JSON string literal, json.dumps style. -/
def jsonQuote (s : String) : String :=
  "\"" ++ String.join (s.data.map jsonEscapeChar) ++ "\""

mutual

/-- json.dumps with the default separators (", " and ": "). -/
def Json.dumps : Json → String
  | .null => "null"
  | .bool b => cond b "true" "false"
  | .num n => toString n
  | .str s => jsonQuote s
  | .arr xs => "[" ++ dumpsArr xs ++ "]"
  | .obj kvs => "\x7b" ++ dumpsObj kvs ++ "\x7d"

/-- Comma-separated serialization of array elements. -/
def dumpsArr : List Json → String
  | [] => ""
  | [j] => Json.dumps j
  | j :: js => Json.dumps j ++ ", " ++ dumpsArr js

/-- Comma-separated serialization of object members. -/
def dumpsObj : List (String × Json) → String
  | [] => ""
  | [kv] => jsonQuote kv.1 ++ ": " ++ Json.dumps kv.2
  | kv :: kvs => jsonQuote kv.1 ++ ": " ++ Json.dumps kv.2 ++ ", " ++ dumpsObj kvs

end

mutual

/-- Python repr() of a value that came from parsed JSON (lists and dicts
render with single-quoted strings; string escaping inside repr is not
modelled, no claim touches it). -/
def pyRepr : Json → String
  | .null => "None"
  | .bool b => cond b "True" "False"
  | .num n => toString n
  | .str s => "\x27" ++ s ++ "\x27"
  | .arr xs => "[" ++ pyReprArr xs ++ "]"
  | .obj kvs => "\x7b" ++ pyReprObj kvs ++ "\x7d"

/-- repr of list elements, comma separated. -/
def pyReprArr : List Json → String
  | [] => ""
  | [j] => pyRepr j
  | j :: js => pyRepr j ++ ", " ++ pyReprArr js

/-- repr of dict items, comma separated. -/
def pyReprObj : List (String × Json) → String
  | [] => ""
  | [kv] => "\x27" ++ kv.1 ++ "\x27: " ++ pyRepr kv.2
  | kv :: kvs => "\x27" ++ kv.1 ++ "\x27: " ++ pyRepr kv.2 ++ ", " ++ pyReprObj kvs

end

/-- Python str() of a value that came from parsed JSON: identity on strings,
repr on everything else. -/
def pyStr : Json → String
  | .str s => s
  | j => pyRepr j

/-- Python truthiness test (`if not questions`) on a JSON-derived value. -/
def Json.falsy : Json → Bool
  | .null => true
  | .bool b => !b
  | .num n => n == 0
  | .str s => s == ""
  | .arr xs => xs.isEmpty
  | .obj kvs => kvs.isEmpty

/-- Python list indexing xs[n], including negative indices; IndexError when
out of range. -/
def pyListIndex (xs : List Json) (n : Int) : Except PyErr Json :=
  let m := if n < 0 then n + xs.length else n
  if h : 0 ≤ m ∧ m.toNat < xs.length then .ok (xs.get ⟨m.toNat, h.2⟩)
  else .error .indexError

/-- Python subscription v[k] on JSON-derived values: list indexing with an
int (or bool, since bool is an int subclass), dict lookup with a string key
(JSON object keys are strings, so any other hashable key raises KeyError and
an unhashable key raises TypeError), TypeError otherwise. -/
def Json.subscript : Json → Json → Except PyErr Json
  | .arr xs, .num n => pyListIndex xs n
  | .arr xs, .bool b => pyListIndex xs (cond b 1 0)
  | .arr _, _ => .error .typeError
  | .obj kvs, .str k =>
      (match List.lookup k kvs with
       | some v => .ok v
       | none => .error (.keyError k))
  | .obj _, .num n => .error (.keyError (toString n))
  | .obj _, .bool b => .error (.keyError (cond b "True" "False"))
  | .obj _, .null => .error (.keyError "None")
  | .obj _, _ => .error .typeError
  | _, _ => .error .typeError

/-- Python iteration over a JSON-derived value (`enumerate(v)`): a list
yields its elements, a dict its keys, a string its characters; other values
raise TypeError. -/
def Json.iterElems : Json → Except PyErr (List Json)
  | .arr xs => .ok xs
  | .obj kvs => .ok (kvs.map (fun kv => Json.str kv.1))
  | .str s => .ok (s.data.map (fun c => Json.str (String.singleton c)))
  | _ => .error .typeError

/-- Python equality `n == v` between an int and a JSON-derived value
(True == 1 and False == 0 in Python; an int never equals a non-number). -/
def pyEqInt (n : Int) : Json → Bool
  | .num m => n == m
  | .bool b => n == (cond b 1 0)
  | _ => false

/-- ASCII whitespace as stripped by str.strip(). -/
def isPySpace (c : Char) : Bool :=
  c == ' ' || c == '\t' || c == '\n' || c == '\r' ||
  c == Char.ofNat 11 || c == Char.ofNat 12

/-- Python str.strip(). -/
def pyStrip (s : String) : String :=
  String.mk (((s.data.dropWhile isPySpace).reverse.dropWhile isPySpace).reverse)

/-- Digit run with Python's single-underscore-between-digits rule, checked
after the first character is known to be a digit. -/
def digitsU : List Char → Bool
  | [] => true
  | '_' :: c :: rest => c.isDigit && digitsU rest
  | ['_'] => false
  | c :: rest => c.isDigit && digitsU rest

/-- Numeric value of a digit string (underscores removed beforehand). -/
def natOfDigits (cs : List Char) : Nat :=
  cs.foldl (fun a c => a * 10 + (c.toNat - 48)) 0

/-- int(s) on a sign-and-digits body (underscores allowed between digits). -/
def pyIntDigits (cs : List Char) : Option Nat :=
  match cs with
  | [] => none
  | c :: _ =>
      if c.isDigit && digitsU cs then some (natOfDigits (cs.filter (fun x => x ≠ '_')))
      else none

/-- Python int(str): strip whitespace, optional sign, ASCII digits with
optional single underscores between digits; ValueError (None) otherwise.
(Unicode digits are not modelled; no claim depends on them.) -/
def pyInt (s : String) : Option Int :=
  match (pyStrip s).data with
  | '-' :: rest => (pyIntDigits rest).map (fun n => -(n : Int))
  | '+' :: rest => (pyIntDigits rest).map (fun n => (n : Int))
  | cs => (pyIntDigits cs).map (fun n => (n : Int))

/-! ## Usage counter (quizgen.py lines 7-20) -/

/-- In-memory counter paired with the usage_count.txt contents
(`none` = file absent). -/
structure UsageState where
  count : Int
  file : Option String
deriving DecidableEq, Repr

/-- Lines 10-14: module-level read of the usage file.  A missing file gives
count 0; present content is stripped, empty content gives int(0); anything
else goes through int(), whose failure (ValueError) propagates. -/
def startup_usage_count (file : Option String) : Except PyErr Int :=
  match file with
  | none => .ok 0
  | some contents =>
      let s := pyStrip contents
      if s = "" then .ok 0
      else
        match pyInt s with
        | some n => .ok n
        | none => .error .valueError

/-- Lines 16-20: log_api_usage increments the global counter and rewrites
the file with the new value. -/
def log_api_usage (s : UsageState) : UsageState :=
  { count := s.count + 1, file := some (toString (s.count + 1)) }

/-- N successive calls of log_api_usage. -/
def logCalls : Nat → UsageState → UsageState
  | 0, s => s
  | n + 1, s => log_api_usage (logCalls n s)

/-! ## generate_questions (quizgen.py lines 25-59) -/

/-- Outcome of the external co.chat call: the response text, or a raised
exception (network, auth, service error) carrying its message. -/
inductive ApiOutcome where
  | ok (text : String)
  | fail (msg : String)

/-- The two external collaborators of generate_questions: co.chat as a
function of the prompt, and json.loads, whose parse failure
(json.JSONDecodeError) carries the str() of the error. -/
structure ApiEnv where
  chat : String → ApiOutcome
  loads : String → Except String Json

/-- Lines 26-40: the f-string prompt template. -/
def buildPrompt (topic difficulty : String) (num_questions : Int) : String :=
  "\nYou are an adaptive quiz generator.\nTopic: " ++ topic ++
  "\nDifficulty: " ++ difficulty ++
  "\nGenerate " ++ toString num_questions ++
  " multiple-choice questions in JSON format:\n[\n  \x7b\n    \"question\": \"string\",\n    \"choices\": [\"A\", \"B\", \"C\", \"D\"],\n    \"answer_index\": 0,\n    \"explanation\": \"string\"\n  \x7d\n]\nEnsure the JSON is valid and nothing else is returned.\n"

/-- Lines 25-59: generate_questions.  Returns the parsed value together with
the list of lines printed to stderr.  The function catches
json.JSONDecodeError (printing the parse error and the raw response text)
and any other exception (printing a generic message), returning the empty
list in both cases; its total return type reflects that no exception
escapes. -/
def generate_questions (env : ApiEnv) (topic difficulty : String)
    (num_questions : Int) : Json × List String :=
  let prompt := buildPrompt topic difficulty num_questions
  match env.chat prompt with
  | .fail e => (.arr [], ["Error calling Cohere API: " ++ e])
  | .ok text =>
      match env.loads text with
      | .ok j => (j, [])
      | .error e =>
          (.arr [], ["Error parsing JSON from Cohere output: " ++ e,
                     "Raw response: " ++ text])

/-! ## Interactive loop (quizgen.py lines 83-114) -/

/-- One event on standard input: a line of text, or Ctrl-C
(KeyboardInterrupt) raised inside input(); an exhausted stream models EOF
(EOFError). -/
inductive InEvent where
  | line (s : String)
  | interrupt
deriving DecidableEq, Repr

/-- Interactive-loop state: stdout so far, remaining stdin events, and the
ghost counter of entries into the duplicated block (lines 101-114). -/
structure St where
  out : List String
  ins : List InEvent
  dup : Nat
deriving DecidableEq, Repr

/-- Result of one iteration of the for-loop body: fall to the next
iteration, break out of the loop, or an uncaught exception. -/
inductive BodyRes where
  | next (st : St)
  | brk (st : St)
  | err (st : St) (e : PyErr)
deriving DecidableEq, Repr

/-- The state carried by a body result. -/
def BodyRes.st : BodyRes → St
  | .next st => st
  | .brk st => st
  | .err st _ => st

/-- Append one printed line to stdout. -/
def emit (st : St) (s : String) : St :=
  { st with out := st.out ++ [s] }

/-- Mark one entry into the duplicated block. -/
def enterDup (st : St) : St :=
  { st with dup := st.dup + 1 }

/-- `for idx, choice in enumerate(q['choices']): print(f"  {idx}. {choice}")`. -/
def emitChoices (cs : List Json) (st : St) : St :=
  cs.enum.foldl (fun a p => emit a ("  " ++ toString p.1 ++ ". " ++ pyStr p.2)) st

/-- Lines 105-114 of quizgen.py: the second read inside the duplicated
block.  Its except clause catches only ValueError (printing "Invalid
input." and continuing), so EOF and Ctrl-C propagate; a numeric answer
recomputes correctness against q["answer_index"], prints the explanation
(KeyError if absent), and finally calls the undefined name update_ability,
raising NameError. -/
def dupAnswer (q ch : Json) (st : St) : BodyRes :=
  match st.ins with
  | [] => .err { st with ins := [] } .eofError
  | .interrupt :: rest => .err { st with ins := rest } .keyboardInterrupt
  | .line s :: rest =>
    let st := { st with ins := rest }
    match pyInt s with
    | none => .next (emit st "Invalid input.")
    | some n =>
        match Json.subscript q (.str "answer_index") with
        | .error e => .err st e
        | .ok ai =>
        if pyEqInt n ai then
          let st := emit st "✅ Correct!"
          match Json.subscript q (.str "explanation") with
          | .error e => .err st e
          | .ok ex =>
              .err (emit st ("Explanation: " ++ pyStr ex))
                   (.nameError "update_ability")
        else
          match Json.subscript ch ai with
          | .error e => .err st e
          | .ok ca =>
          let st := emit st ("❌ Wrong. Correct answer: " ++ pyStr ca)
          match Json.subscript q (.str "explanation") with
          | .error e => .err st e
          | .ok ex =>
              .err (emit st ("Explanation: " ++ pyStr ex))
                   (.nameError "update_ability")

/-- Lines 101-105 of quizgen.py: entry into the duplicated block — re-print
the choices and the prompt, then hand over to dupAnswer for the second
read-and-check. -/
def dupBlock (q : Json) (st : St) : BodyRes :=
  let st := enterDup st
  match Json.subscript q (.str "choices") with
  | .error e => .err st e
  | .ok ch =>
  match ch.iterElems with
  | .error e => .err st e
  | .ok cs =>
  dupAnswer q ch (emit (emitChoices cs st) "Your answer (0-3): ")

/-- Lines 83-100 of quizgen.py: the first part of the loop body.  Prints the
question (KeyError/TypeError on a malformed element propagates) and its
choices, reads an answer inside try/except (ValueError, KeyboardInterrupt):
a caught exception prints "Quiz interrupted." and breaks; an in-range answer
prints correctness (the correct choice is computed unconditionally, so a bad
answer_index propagates) and the explanation if present; an out-of-range
answer prints a warning.  Control then falls through into dupBlock — the
body has no continue. -/
def firstBlock (i : Nat) (q : Json) (st : St) : BodyRes :=
  match Json.subscript q (.str "question") with
  | .error e => .err st e
  | .ok qt =>
  let st := emit st ("\nQ" ++ toString i ++ ": " ++ pyStr qt)
  match Json.subscript q (.str "choices") with
  | .error e => .err st e
  | .ok ch =>
  match ch.iterElems with
  | .error e => .err st e
  | .ok cs =>
  let st := emit (emitChoices cs st) "Your answer (0-3): "
  match st.ins with
  | [] => .err { st with ins := [] } .eofError
  | .interrupt :: rest =>
      .brk (emit { st with ins := rest } "\nQuiz interrupted.")
  | .line s :: rest =>
    let st := { st with ins := rest }
    match pyInt s with
    | none => .brk (emit st "\nQuiz interrupted.")
    | some n =>
        if 0 ≤ n ∧ n ≤ 3 then
          match Json.subscript q (.str "answer_index") with
          | .error e => .err st e
          | .ok ai =>
          let correct := pyEqInt n ai
          match Json.subscript ch ai with
          | .error e => .err st e
          | .ok ca =>
          let st := emit st
            (cond correct "✅ Correct!" ("❌ Wrong. Correct answer: " ++ pyStr ca))
          let st :=
            match Json.subscript q (.str "explanation") with
            | .ok ex => emit st ("Explanation: " ++ pyStr ex)
            | .error _ => st
          dupBlock q st
        else
          dupBlock q (emit st "Invalid input. Please enter 0-3.")

/-- The for-loop over enumerate(questions, start=1). -/
def runLoop : Nat → List Json → St → St × Option PyErr
  | _, [], st => (st, none)
  | i, q :: qs, st =>
      match firstBlock i q st with
      | .next st2 => runLoop (i + 1) qs st2
      | .brk st2 => (st2, none)
      | .err st2 e => (st2, some e)

/-! ## Entry point (quizgen.py lines 61-114) -/

/-- The --mode flag: argparse restricts it to json or interactive. -/
inductive Mode where
  | json
  | interactive
deriving DecidableEq, Repr

/-- Parsed command line (topic, difficulty, count, mode). -/
structure Args where
  topic : String
  difficulty : String
  count : Int
  mode : Mode

/-- Observable outcome of one run: stdout and stderr lines, the process exit
status, the uncaught exception if one terminated the run (CPython exits with
status 1 after an unhandled exception), and the ghost count of entries into
the duplicated block. -/
structure RunResult where
  stdout : List String
  stderr : List String
  exitCode : Nat
  uncaught : Option PyErr
  dupCount : Nat
deriving DecidableEq, Repr

/-- Lines 71-114: the __main__ body after argument parsing.  Batch (json)
mode prints json.dumps(questions) and exits 0.  Interactive mode exits 1
via sys.exit(1) when questions is falsy; otherwise it runs the loop, and an
exception escaping the loop ends the process with status 1. -/
def main_run (args : Args) (env : ApiEnv) (stdin : List InEvent) : RunResult :=
  match args.mode with
  | .json =>
      let r := generate_questions env args.topic args.difficulty args.count
      { stdout := [Json.dumps r.1], stderr := r.2, exitCode := 0,
        uncaught := none, dupCount := 0 }
  | .interactive =>
      let r := generate_questions env args.topic args.difficulty args.count
      if r.1.falsy then
        { stdout := ["No questions generated."], stderr := r.2, exitCode := 1,
          uncaught := none, dupCount := 0 }
      else
        match r.1.iterElems with
        | .error e =>
            { stdout := [], stderr := r.2, exitCode := 1,
              uncaught := some e, dupCount := 0 }
        | .ok qs =>
            let p := runLoop 1 qs { out := [], ins := stdin, dup := 0 }
            { stdout := p.1.out, stderr := r.2,
              exitCode := cond p.2.isSome 1 0,
              uncaught := p.2, dupCount := p.1.dup }

/-- Everything outside the script that a run can observe or change: the
usage file, the external API, and standard input. -/
structure World where
  usageFile : Option String
  env : ApiEnv
  stdin : List InEvent

/-- A whole process run: the module-level usage-file read happens first (a
ValueError there kills the process with status 1 before any mode runs),
then the __main__ body.  The second component is the usage file after the
run. -/
def run_program (args : Args) (w : World) : RunResult × Option String :=
  match startup_usage_count w.usageFile with
  | .error e =>
      ({ stdout := [], stderr := [], exitCode := 1,
         uncaught := some e, dupCount := 0 }, w.usageFile)
  | .ok _ => (main_run args w.env w.stdin, w.usageFile)

/-! ## Concrete scenarios used by witnesses and counterexamples -/

/-- A well-formed question object, as the prompt requests. -/
def goodQ : Json :=
  .obj [("question", .str "What does HTML stand for?"),
        ("choices", .arr [.str "A", .str "B", .str "C", .str "D"]),
        ("answer_index", .num 0),
        ("explanation", .str "E")]

/-- API succeeds and the response parses to one well-formed question. -/
def envGood : ApiEnv :=
  { chat := fun _ => .ok "resp", loads := fun _ => .ok (.arr [goodQ]) }

/-- API succeeds and the response parses to a two-element array. -/
def envPair : ApiEnv :=
  { chat := fun _ => .ok "resp2",
    loads := fun _ => .ok (.arr [.num 1, .num 2]) }

/-- The upstream call raises (network/auth/service error). -/
def envFail : ApiEnv :=
  { chat := fun _ => .fail "boom", loads := fun _ => .error "unused" }

/-- The upstream call succeeds but the text is not JSON. -/
def envBad : ApiEnv :=
  { chat := fun _ => .ok "not json",
    loads := fun _ => .error "Expecting value" }

/-- API succeeds and the response parses to one question object that lacks
every required key. -/
def envNoKey : ApiEnv :=
  { chat := fun _ => .ok "resp", loads := fun _ => .ok (.arr [.obj []]) }

/-- Interactive-mode command line. -/
def argsI : Args :=
  { topic := "HTML Basics", difficulty := "beginner", count := 1,
    mode := .interactive }

/-- Batch-mode command line. -/
def argsJ : Args :=
  { topic := "HTML Basics", difficulty := "beginner", count := 1,
    mode := .json }

/-! ## Theorems -/

/-- Claim C1: for every prompt, if the upstream call or JSON parsing fails,
generate_questions returns the empty list and writes diagnostics to stderr
without propagating the exception: a JSON-decode failure logs the parse
error plus the raw response text, and any other failure logs a generic
error message.  (generate_questions is total — it returns a value, not an
exception, in both failure cases.) -/
theorem generate_questions_error_paths (env : ApiEnv)
    (topic difficulty : String) (n : Int) :
    (∀ e, env.chat (buildPrompt topic difficulty n) = .fail e →
      generate_questions env topic difficulty n =
        (.arr [], ["Error calling Cohere API: " ++ e])) ∧
    (∀ text e, env.chat (buildPrompt topic difficulty n) = .ok text →
      env.loads text = .error e →
      generate_questions env topic difficulty n =
        (.arr [], ["Error parsing JSON from Cohere output: " ++ e,
                   "Raw response: " ++ text])) := by
  constructor
  · intro e h
    simp only [generate_questions]
    rw [h]
  · intro text e h1 h2
    simp only [generate_questions, h1, h2]

/-- Witness for C1: a failing upstream call and a non-JSON response, each at
a concrete input. -/
theorem generate_questions_error_paths_checked :
    generate_questions envFail "t" "d" 1 =
      (.arr [], ["Error calling Cohere API: boom"]) ∧
    generate_questions envBad "t" "d" 1 =
      (.arr [], ["Error parsing JSON from Cohere output: Expecting value",
                 "Raw response: not json"]) :=
  ⟨(generate_questions_error_paths envFail "t" "d" 1).1 "boom" rfl,
   (generate_questions_error_paths envBad "t" "d" 1).2 "not json"
     "Expecting value" rfl rfl⟩

/-- Claim C2: when the API call succeeds and its text parses as a JSON array
of question objects, generate_questions returns exactly that array — the
same elements, in the same order (hence exactly k of them), and prints
nothing to stderr. -/
theorem generate_questions_preserves_parsed_array (env : ApiEnv)
    (topic difficulty : String) (n : Int) (text : String) (qs : List Json)
    (h1 : env.chat (buildPrompt topic difficulty n) = .ok text)
    (h2 : env.loads text = .ok (.arr qs)) :
    generate_questions env topic difficulty n = (.arr qs, []) := by
  simp only [generate_questions, h1, h2]

/-- Witness for C2: a canned two-element array comes back unchanged. -/
theorem generate_questions_preserves_parsed_array_checked :
    generate_questions envPair "t" "d" 2 = (.arr [.num 1, .num 2], []) :=
  generate_questions_preserves_parsed_array envPair "t" "d" 2 "resp2"
    [.num 1, .num 2] rfl rfl

/-- Claim C3: in batch (json) mode the program writes exactly one value to
stdout, the json.dumps serialization of the question value (hence a single
valid JSON value), and when generate_questions returns the empty list that
output is exactly the empty array. -/
theorem batch_mode_output_json (args : Args) (env : ApiEnv)
    (stdin : List InEvent) (h : args.mode = .json) :
    (main_run args env stdin).stdout =
      [Json.dumps (generate_questions env args.topic args.difficulty args.count).1] ∧
    (∃ j : Json, (main_run args env stdin).stdout = [Json.dumps j]) ∧
    ((generate_questions env args.topic args.difficulty args.count).1 = .arr [] →
      (main_run args env stdin).stdout = ["[]"]) := by
  obtain ⟨t, d, c, m⟩ := args
  dsimp only at h ⊢
  subst h
  refine ⟨rfl, ⟨(generate_questions env t d c).1, rfl⟩, fun h2 => ?_⟩
  show [Json.dumps (generate_questions env t d c).1] = ["[]"]
  rw [h2]
  simp [Json.dumps, dumpsArr]

/-- Witness for C3: batch mode with a failing API prints exactly the empty
array. -/
theorem batch_mode_output_json_checked :
    (main_run argsJ envFail []).stdout = ["[]"] :=
  (batch_mode_output_json argsJ envFail [] rfl).2.2 rfl

/-- logCalls adds its argument to the counter. -/
theorem logCalls_count (n : Nat) :
    ∀ s : UsageState, (logCalls n s).count = s.count + n := by
  induction n with
  | zero => intro s; simp [logCalls]
  | succ m ih =>
      intro s
      show (log_api_usage (logCalls m s)).count = s.count + (m + 1 : Nat)
      simp [log_api_usage, ih s]
      ring

/-- Claim C7: an absent usage file (or one whose stripped content is empty)
gives an initial counter of 0; each log_api_usage call increments the
counter and rewrites the file with the new value; after N calls from an
absent file the file holds exactly the numeral of N. -/
theorem usage_counter_spec (c : String) (N : Nat) :
    startup_usage_count none = .ok 0 ∧
    (pyStrip c = "" → startup_usage_count (some c) = .ok 0) ∧
    (∀ s, log_api_usage s = ⟨s.count + 1, some (toString (s.count + 1))⟩) ∧
    (logCalls N ⟨0, none⟩).count = N ∧
    (1 ≤ N → (logCalls N ⟨0, none⟩).file = some (toString (N : Int))) := by
  refine ⟨rfl, ?_, fun s => rfl, ?_, ?_⟩
  · intro h
    simp only [startup_usage_count]
    rw [if_pos h]
  · rw [logCalls_count]
    show (0 : Int) + N = N
    ring
  · intro hN
    cases N with
    | zero => exact absurd hN (by decide)
    | succ m =>
        show (log_api_usage (logCalls m ⟨0, none⟩)).file = _
        rw [show (log_api_usage (logCalls m ⟨0, none⟩)).file
              = some (toString ((logCalls m ⟨0, none⟩).count + 1)) from rfl,
            logCalls_count]
        have hcast : ((⟨0, none⟩ : UsageState).count + (m : Int) + 1)
            = ((m + 1 : Nat) : Int) := by
          push_cast
          ring
        rw [hcast]

/-- Witness for C7: three logged calls from an absent file leave counter 3
and file "3"; whitespace-only content reads as 0. -/
theorem usage_counter_spec_checked :
    startup_usage_count (some "  ") = .ok 0 ∧
    (logCalls 3 ⟨0, none⟩).count = 3 ∧
    (logCalls 3 ⟨0, none⟩).file = some "3" := by
  have h := usage_counter_spec "  " 3
  refine ⟨h.2.1 (by decide), h.2.2.2.1, ?_⟩
  have h3 := h.2.2.2.2 (by decide)
  exact h3.trans (by decide)

/-- Claim C8: a usage file whose stripped content is non-empty but not a
valid integer makes the startup read raise ValueError; the error is not
swallowed, the process dies with status 1 before producing any output. -/
theorem usage_count_non_numeric_fails (c : String) (args : Args) (w : World)
    (hw : w.usageFile = some c) (h1 : pyStrip c ≠ "")
    (h2 : pyInt (pyStrip c) = none) :
    startup_usage_count (some c) = .error .valueError ∧
    (run_program args w).1.exitCode = 1 ∧
    (run_program args w).1.stdout = [] ∧
    (run_program args w).1.uncaught = some .valueError := by
  have hs : startup_usage_count (some c) = .error .valueError := by
    simp only [startup_usage_count]
    rw [if_neg h1, h2]
  refine ⟨hs, ?_, ?_, ?_⟩ <;>
    · unfold run_program
      rw [hw, hs]

/-- Witness for C8: content "abc" kills the run at startup. -/
theorem usage_count_non_numeric_fails_checked :
    startup_usage_count (some "abc") = .error .valueError ∧
    (run_program argsJ ⟨some "abc", envFail, []⟩).1.exitCode = 1 ∧
    (run_program argsJ ⟨some "abc", envFail, []⟩).1.stdout = [] ∧
    (run_program argsJ ⟨some "abc", envFail, []⟩).1.uncaught =
      some .valueError :=
  usage_count_non_numeric_fails "abc" argsJ ⟨some "abc", envFail, []⟩ rfl
    (by decide) (by decide)

/-- Claim C10: no run of the program writes the usage file — the file after
any run equals the file before it; log_api_usage (the only writer, shown by
its equation) is never invoked by either mode. -/
theorem usage_file_never_written (args : Args) (w : World) :
    (run_program args w).2 = w.usageFile ∧
    ∀ s, (log_api_usage s).file = some (toString (s.count + 1)) := by
  refine ⟨?_, fun s => rfl⟩
  unfold run_program
  split <;> rfl

/-- A fold that only emits output lines never changes the ghost dup counter. -/
theorem foldl_emit_dup (f : Nat × Json → String) :
    ∀ (l : List (Nat × Json)) (st : St),
      (l.foldl (fun a p => emit a (f p)) st).dup = st.dup := by
  intro l
  induction l with
  | nil => intro st; rfl
  | cons x xs ih => intro st; simpa [List.foldl] using ih (emit st (f x))

/-- Printing the choice lines never changes the ghost dup counter. -/
theorem emitChoices_dup (cs : List Json) (st : St) :
    (emitChoices cs st).dup = st.dup := by
  unfold emitChoices
  exact foldl_emit_dup _ cs.enum st

/-- The second read-and-check never touches the ghost dup counter. -/
theorem dupAnswer_dup (q ch : Json) (st : St) :
    ((dupAnswer q ch st).st).dup = st.dup := by
  obtain ⟨out, ins, dup⟩ := st
  cases ins with
  | nil => rfl
  | cons ev rest =>
      cases ev with
      | interrupt => rfl
      | line s =>
          unfold dupAnswer
          repeat' split
          all_goals simp [BodyRes.st, emit]

/-- Whatever happens inside the duplicated block, its entry bumps the ghost
counter exactly once. -/
theorem dupBlock_dup (q : Json) (st : St) :
    ((dupBlock q st).st).dup = st.dup + 1 := by
  unfold dupBlock
  repeat' split
  all_goals (try rw [dupAnswer_dup])
  all_goals simp [BodyRes.st, emit, enterDup, emitChoices_dup]

/-- For a single-question list, the loop's final dup counter is the one left
by the body. -/
theorem runLoop_single_dup (i : Nat) (q : Json) (st : St) :
    ((runLoop i [q] st).1).dup = ((firstBlock i q st).st).dup := by
  unfold runLoop
  cases h : firstBlock i q st <;> simp [h, BodyRes.st, runLoop]

/-- Interactive run on envGood reduces to the loop over [goodQ]. -/
theorem main_run_argsI_envGood (ins : List InEvent) :
    main_run argsI envGood ins =
      { stdout := (runLoop 1 [goodQ] { out := [], ins := ins, dup := 0 }).1.out,
        stderr := [],
        exitCode :=
          cond (runLoop 1 [goodQ] { out := [], ins := ins, dup := 0 }).2.isSome 1 0,
        uncaught := (runLoop 1 [goodQ] { out := [], ins := ins, dup := 0 }).2,
        dupCount :=
          (runLoop 1 [goodQ] { out := [], ins := ins, dup := 0 }).1.dup } := rfl

/-- On goodQ with first answer "0", the first part of the body prints the
question, the choices, the prompt, the correctness line and the explanation,
and then falls through into the duplicated block. -/
theorem firstBlock_goodQ_zero (rest : List InEvent) :
    firstBlock 1 goodQ { out := [], ins := .line "0" :: rest, dup := 0 } =
      dupBlock goodQ
        { out := ["\nQ1: What does HTML stand for?", "  0. A", "  1. B",
                  "  2. C", "  3. D", "Your answer (0-3): ", "✅ Correct!",
                  "Explanation: E"],
          ins := rest, dup := 0 } := rfl

/-- Claim C4 is contradicted by the code: after a valid in-range first
answer the loop does not proceed to the next question — the body falls
through into the duplicated block, prompts a second time (the prompt
appears twice for one question), and a second numeric answer reaches the
call of the undefined name update_ability, so the run dies with NameError
and exit status 1 instead of completing. -/
theorem interactive_first_answer_falls_through :
    (main_run argsI envGood [.line "0", .line "1"]).stdout.count
        "Your answer (0-3): " = 2 ∧
    (main_run argsI envGood [.line "0", .line "1"]).stdout.count
        "✅ Correct!" = 1 ∧
    (main_run argsI envGood [.line "0", .line "1"]).dupCount = 1 ∧
    (main_run argsI envGood [.line "0", .line "1"]).uncaught =
      some (.nameError "update_ability") ∧
    (main_run argsI envGood [.line "0", .line "1"]).exitCode = 1 := by
  refine ⟨?_, ?_, ?_, ?_, ?_⟩ <;> decide

/-- Claim C5 is false at a concrete input: with one well-formed question and
inputs "5" then "x", the run enters the duplicated block (ghost counter 1 —
its second prompt and its distinct "Invalid input." message are printed) and
then completes normally. -/
theorem duplicate_block_reached_run :
    (main_run argsI envGood [.line "5", .line "x"]).dupCount = 1 ∧
    (main_run argsI envGood [.line "5", .line "x"]).stdout.count
        "Invalid input." = 1 ∧
    (main_run argsI envGood [.line "5", .line "x"]).stdout.count
        "Invalid input. Please enter 0-3." = 1 ∧
    (main_run argsI envGood [.line "5", .line "x"]).exitCode = 0 := by
  refine ⟨?_, ?_, ?_, ?_⟩ <;> decide

/-- Claim C5 amended: the duplicated block after the loop's first try/except
is reachable — the body has no continue, so any iteration whose first input
parses as an integer falls through into it; in particular, on a well-formed
question every run whose first answer is "0" enters it exactly once,
whatever input follows. -/
theorem duplicate_block_reachable (rest : List InEvent) :
    (main_run argsI envGood (.line "0" :: rest)).dupCount = 1 := by
  rw [main_run_argsI_envGood]
  show (runLoop 1 [goodQ] { out := [], ins := .line "0" :: rest, dup := 0 }).1.dup = 1
  rw [runLoop_single_dup, firstBlock_goodQ_zero, dupBlock_dup]

/-- Claim C6 is false at a concrete input: an interactive run with a
non-empty question list can exit with status 1 — here the duplicated block's
update_ability NameError kills the run — although the claim requires status
0 for every interactive run with non-empty questions. -/
theorem interactive_nonempty_nonzero_exit :
    (generate_questions envGood argsI.topic argsI.difficulty
        argsI.count).1.falsy = false ∧
    argsI.mode = .interactive ∧
    (main_run argsI envGood [.line "2", .line "3"]).exitCode = 1 := by
  refine ⟨?_, ?_, ?_⟩ <;> decide

/-- Claim C6 amended: batch mode always exits 0; interactive mode exits 1
when generate_questions returns a falsy (empty) result, and otherwise exits
0 exactly when no uncaught exception (missing key, non-iterable result, or
the duplicated block's NameError / EOF / Ctrl-C at its prompt) terminates
the loop — when one does, the exit status is 1. -/
theorem exit_code_characterization (args : Args) (env : ApiEnv)
    (stdin : List InEvent) :
    (args.mode = .json → (main_run args env stdin).exitCode = 0) ∧
    (args.mode = .interactive →
      ((generate_questions env args.topic args.difficulty args.count).1.falsy
          = true → (main_run args env stdin).exitCode = 1) ∧
      ((generate_questions env args.topic args.difficulty args.count).1.falsy
          = false →
        ((main_run args env stdin).exitCode = 0 ↔
          (main_run args env stdin).uncaught = none))) := by
  obtain ⟨t, d, c, m⟩ := args
  dsimp only
  cases m with
  | json =>
      constructor
      · intro hm
        rfl
      · intro hm
        exact absurd hm (by decide)
  | interactive =>
      constructor
      · intro hm
        exact absurd hm (by decide)
      · intro hmm
        constructor
        · intro hf
          simp [main_run, hf]
        · intro hf
          simp only [main_run, hf]
          simp only [Bool.false_eq_true, if_false]
          cases he : (generate_questions env t d c).1.iterElems with
          | error e => simp [he]
          | ok qs =>
              simp only [he]
              cases hp : (runLoop 1 qs { out := [], ins := stdin, dup := 0 }).2 with
              | none => simp [hp]
              | some e => simp [hp]

/-- Witness for C6 amended: batch mode with a failing API exits 0;
interactive mode with an empty result exits 1. -/
theorem exit_code_characterization_checked :
    (main_run argsJ envFail []).exitCode = 0 ∧
    (main_run argsI envFail []).exitCode = 1 :=
  ⟨(exit_code_characterization argsJ envFail []).1 rfl,
   ((exit_code_characterization argsI envFail []).2 rfl).1 rfl⟩

/-- Claim C9: in interactive mode, a first question object that is valid
JSON but lacks the "question" key makes presentation raise KeyError at
q["question"]; the lookup error is outside the loop's try/except, so it is
uncaught and the process dies with status 1. -/
theorem missing_question_key_uncaught (args : Args) (env : ApiEnv)
    (stdin : List InEvent) (kvs : List (String × Json)) (qs : List Json)
    (hm : args.mode = .interactive)
    (hg : (generate_questions env args.topic args.difficulty args.count).1 =
      .arr (.obj kvs :: qs))
    (hk : List.lookup "question" kvs = none) :
    (main_run args env stdin).uncaught = some (.keyError "question") ∧
    (main_run args env stdin).exitCode = 1 := by
  obtain ⟨t, d, c, m⟩ := args
  dsimp only at hm hg ⊢
  subst hm
  constructor <;>
    simp [main_run, hg, Json.falsy, Json.iterElems, runLoop, firstBlock,
          Json.subscript, hk, BodyRes.st]

/-- Witness for C9: a question object with no keys at all kills the run
with KeyError "question". -/
theorem missing_question_key_uncaught_checked :
    (main_run argsI envNoKey []).uncaught = some (.keyError "question") ∧
    (main_run argsI envNoKey []).exitCode = 1 :=
  missing_question_key_uncaught argsI envNoKey [] [] [] rfl rfl rfl

end Quizgen
